import Mathlib

/-!
Shallow embedding of the trivia game-show session core: the `GameState`
data model, the `gameReducer` transition function
(`src/context/gameReducer.ts`), the `INIT`-based remote-delta merge and
`mapRecordToState` (`src/context/GameContext.tsx`), together with proofs
about them.
-/

namespace ThirtyChallenge

/-- Top-level session stage. The closed phase set observed in the code is
CONFIG, LOBBY, PLAYING, COMPLETED. -/
inductive GamePhase where
  | CONFIG
  | LOBBY
  | PLAYING
  | COMPLETED
deriving DecidableEq

/-- Fixed ordered set of round codes, from the `order` list in
`GameContext.tsx` (`nextSegment`). -/
inductive SegmentCode where
  | WSHA
  | AUCT
  | BELL
  | SING
  | REMO
deriving DecidableEq

/-- The fixed key set of the `players` mapping. -/
inductive PlayerId where
  | host
  | playerA
  | playerB
deriving DecidableEq

/-- Modelled from the spec: `Player` (`@/types/game` is not in the sources):
`id`, `name`, `score` (integer, may go negative), `strikes` (a counter),
`specialButtons` (mapping button-kind to available flag), optional `flag`
and `club`, `isConnected`. -/
structure Player where
  id : PlayerId
  name : String
  score : Int
  strikes : Nat
  specialButtons : List (String × Bool)
  flag : Option String
  club : Option String
  isConnected : Bool
deriving DecidableEq

/-- Modelled from the spec: `ScoreEvent`: `playerId`, `points` (signed delta),
`timestamp`, optional `reason`. -/
structure ScoreEvent where
  playerId : PlayerId
  points : Int
  timestamp : Nat
  reason : Option String
deriving DecidableEq

/-- The `players` object, as a JavaScript-object-like association list from
player ids to players (insertion-ordered, unique keys in practice). -/
abbrev Players := List (PlayerId × Player)

/-- JavaScript `obj[k]` read: the value at the first occurrence of key `k`. -/
def objGet {α β : Type} [DecidableEq α] : List (α × β) → α → Option β
  | [], _ => none
  | kv :: rest, k => if kv.1 = k then some kv.2 else objGet rest k

/-- JavaScript `obj[k] = v` write: replace the value at an existing key in
place, otherwise append the new key at the end. -/
def objSet {α β : Type} [DecidableEq α] : List (α × β) → α → β → List (α × β)
  | [], k, v => [(k, v)]
  | kv :: rest, k, v => if kv.1 = k then (k, v) :: rest else kv :: objSet rest k v

/-- In-place mutation of the value stored at key `k` (JavaScript
`const p = obj[k]; p.field = …`). When the key is absent the JavaScript
code would fault on `undefined`; that case is unreachable under the
three-fixed-keys invariant and is embedded as a no-op. -/
def objUpdate {α β : Type} [DecidableEq α] (f : β → β) : List (α × β) → α → List (α × β)
  | [], _ => []
  | kv :: rest, k => if kv.1 = k then (kv.1, f kv.2) :: rest else kv :: objUpdate f rest k

/-- The `Object.values(draft.players).forEach((p) => { p.strikes = 0 })`
loop of the reducer. -/
def zeroStrikes (ps : Players) : Players :=
  ps.map (fun kv => (kv.1, { kv.2 with strikes := 0 }))

/-- Modelled from the spec: the session state (`@/types/game` is not in the
sources). Fields follow §3 of the spec and the usage in `gameReducer.ts` and
`GameContext.tsx`. Numeric fields are JavaScript numbers used as integers:
`timer` is embedded as `Int` (the reducer performs no validation),
`currentQuestionIndex` as `Nat` (only ever set to 0 or incremented). -/
structure GameState where
  gameId : String
  hostCode : String
  hostName : Option String
  phase : GamePhase
  currentSegment : Option SegmentCode
  currentQuestionIndex : Nat
  timer : Int
  isTimerRunning : Bool
  players : Players
  scoreHistory : List ScoreEvent
  segmentSettings : List (SegmentCode × Nat)
  videoRoomUrl : Option String
  videoRoomCreated : Bool
deriving DecidableEq

/-- `Partial<Player>`: the payload of `UPDATE_PLAYER`; a present field
overrides, an absent field is left alone (`Object.assign`). -/
structure PlayerDelta where
  id : Option PlayerId
  name : Option String
  score : Option Int
  strikes : Option Nat
  specialButtons : Option (List (String × Bool))
  flag : Option (Option String)
  club : Option (Option String)
  isConnected : Option Bool
deriving DecidableEq

/-- `Object.assign(draft.players[action.id], action.partial)`: shallow merge
of the present delta fields over the player. -/
def assignPlayer (p : Player) (d : PlayerDelta) : Player where
  id := d.id.getD p.id
  name := d.name.getD p.name
  score := d.score.getD p.score
  strikes := d.strikes.getD p.strikes
  specialButtons := d.specialButtons.getD p.specialButtons
  flag := d.flag.getD p.flag
  club := d.club.getD p.club
  isConnected := d.isConnected.getD p.isConnected

/-- The action union of `gameReducer.ts`: the imported spec actions plus the
locally declared ones, exactly the eighteen cases the reducer's switch
handles. -/
inductive GameAction where
  | INIT (payload : GameState)
  | SET_PHASE (phase : GamePhase)
  | SET_CURRENT_SEGMENT (segment : Option SegmentCode)
  | NEXT_QUESTION
  | NEXT_SEGMENT
  | ADD_PLAYER (player : Player)
  | UPDATE_PLAYER (id : PlayerId) (patch : PlayerDelta)
  | UPDATE_SCORE (playerId : PlayerId) (points : Int)
  | ADD_STRIKE (playerId : PlayerId)
  | USE_SPECIAL_BUTTON (playerId : PlayerId) (buttonType : String)
  | START_TIMER (duration : Int)
  | STOP_TIMER
  | TICK_TIMER
  | RESET_GAME
  | UPDATE_TIMER (timer : Int) (isRunning : Bool)
  | PUSH_SCORE_EVENT (event : ScoreEvent)
  | RESET_STRIKES
  | COMPLETE_GAME
deriving DecidableEq

/-- Modelled from the spec: a default `Player` slot (the `defaults` module is
not in the sources). The spec names no button kinds, so the special-buttons
mapping defaults to empty; nothing below depends on its contents. -/
def defaultPlayer (pid : PlayerId) : Player where
  id := pid
  name := ""
  score := 0
  strikes := 0
  specialButtons := []
  flag := none
  club := none
  isConnected := false

/-- Modelled from the spec: the fixed three-slot default player set
{host, playerA, playerB} (the `defaults` module is not in the sources). -/
def defaultPlayers : Players :=
  [(.host, defaultPlayer .host), (.playerA, defaultPlayer .playerA),
   (.playerB, defaultPlayer .playerB)]

/-- Modelled from the spec: the canonical initial state (the
`initialGameState` module is not in the sources): phase CONFIG, default
players, empty history, zeroed progress and timer fields. -/
def initialGameState : GameState where
  gameId := ""
  hostCode := ""
  hostName := none
  phase := .CONFIG
  currentSegment := none
  currentQuestionIndex := 0
  timer := 0
  isTimerRunning := false
  players := defaultPlayers
  scoreHistory := []
  segmentSettings := []
  videoRoomUrl := none
  videoRoomCreated := false

/-- JavaScript `player.strikes || 0`: an undefined/zero guard, identity on a
defined natural number except that it maps 0 to 0. -/
def strikesOrZero (n : Nat) : Nat := if n = 0 then 0 else n

/-- The pure transition function of `gameReducer.ts`, case by case in source
order. `produce` with draft mutation is embedded as a copy-on-write record
update; a `case` that only mutates some draft fields becomes a record update
of those fields. -/
def gameReducer (state : GameState) (action : GameAction) : GameState :=
  match action with
  | .INIT payload => payload
  | .SET_PHASE ph =>
      { state with
        phase := ph
        currentSegment := if ph = .CONFIG then none else state.currentSegment }
  | .SET_CURRENT_SEGMENT seg =>
      { state with
        currentSegment := seg
        currentQuestionIndex := 0
        timer := 0
        isTimerRunning := false }
  | .NEXT_QUESTION =>
      { state with
        currentQuestionIndex := state.currentQuestionIndex + 1
        timer := 0
        isTimerRunning := false
        players := zeroStrikes state.players }
  | .NEXT_SEGMENT =>
      { state with
        currentQuestionIndex := 0
        timer := 0
        isTimerRunning := false
        players := zeroStrikes state.players }
  | .ADD_PLAYER player =>
      { state with players := objSet state.players player.id player }
  | .UPDATE_PLAYER pid patch =>
      { state with players := objUpdate (fun p => assignPlayer p patch) state.players pid }
  | .UPDATE_SCORE pid pts =>
      { state with players := objUpdate (fun p => { p with score := p.score + pts }) state.players pid }
  | .ADD_STRIKE pid =>
      { state with players := objUpdate (fun p => { p with strikes := strikesOrZero p.strikes + 1 }) state.players pid }
  | .USE_SPECIAL_BUTTON pid btn =>
      { state with players := objUpdate (fun p => { p with specialButtons := objSet p.specialButtons btn false }) state.players pid }
  | .START_TIMER duration =>
      { state with timer := duration, isTimerRunning := true }
  | .STOP_TIMER =>
      { state with timer := 0, isTimerRunning := false }
  | .TICK_TIMER =>
      if state.timer > 0 then { state with timer := state.timer - 1 } else state
  | .RESET_GAME => initialGameState
  | .UPDATE_TIMER t b =>
      { state with timer := t, isTimerRunning := b }
  | .PUSH_SCORE_EVENT e =>
      { state with scoreHistory := state.scoreHistory ++ [e] }
  | .RESET_STRIKES =>
      { state with players := zeroStrikes state.players }
  | .COMPLETE_GAME =>
      { state with phase := .COMPLETED, isTimerRunning := false }

/-- Left fold of the reducer over a sequence of dispatched actions. -/
def applyActions (s : GameState) (acts : List GameAction) : GameState :=
  acts.foldl gameReducer s

/-- `Partial<GameState>`: a remote delta as received by
`onGameStateUpdate`; a present field overrides, an absent field is left
alone. -/
structure GameStateDelta where
  gameId : Option String
  hostCode : Option String
  hostName : Option (Option String)
  phase : Option GamePhase
  currentSegment : Option (Option SegmentCode)
  currentQuestionIndex : Option Nat
  timer : Option Int
  isTimerRunning : Option Bool
  players : Option Players
  scoreHistory : Option (List ScoreEvent)
  segmentSettings : Option (List (SegmentCode × Nat))
  videoRoomUrl : Option (Option String)
  videoRoomCreated : Option Bool
deriving DecidableEq

/-- The spread `{ ...state, ...gs }` of `GameContext.tsx`
(`onGameStateUpdate`): top-level field-wise merge of the delta over the
current state. -/
def mergeDelta (s : GameState) (d : GameStateDelta) : GameState where
  gameId := d.gameId.getD s.gameId
  hostCode := d.hostCode.getD s.hostCode
  hostName := d.hostName.getD s.hostName
  phase := d.phase.getD s.phase
  currentSegment := d.currentSegment.getD s.currentSegment
  currentQuestionIndex := d.currentQuestionIndex.getD s.currentQuestionIndex
  timer := d.timer.getD s.timer
  isTimerRunning := d.isTimerRunning.getD s.isTimerRunning
  players := d.players.getD s.players
  scoreHistory := d.scoreHistory.getD s.scoreHistory
  segmentSettings := d.segmentSettings.getD s.segmentSettings
  videoRoomUrl := d.videoRoomUrl.getD s.videoRoomUrl
  videoRoomCreated := d.videoRoomCreated.getD s.videoRoomCreated

/-- Reconciliation of a remote delta: `GameContext.tsx` dispatches
`INIT` with the merged payload
(`dispatch({ type: 'INIT', payload: { ...state, ...gs } })`). -/
def applyRemoteDelta (s : GameState) (d : GameStateDelta) : GameState :=
  gameReducer s (.INIT (mergeDelta s d))

/-- The stored Supabase record, with exactly the columns `mapRecordToState`
reads (`GameRecord` of `@/lib/gameDatabase`, not in the sources; field set
taken from its use in `GameContext.tsx`). -/
structure GameRecord where
  id : String
  host_code : String
  host_name : Option String
  phase : GamePhase
  current_segment : Option SegmentCode
  current_question_index : Nat
  video_room_url : Option String
  video_room_created : Bool
  timer : Int
  is_timer_running : Bool
  segment_settings : List (SegmentCode × Nat)
deriving DecidableEq

/-- `mapRecordToState` of `GameContext.tsx`: spread the initial state, then
override with the record's columns; `players` is always `defaultPlayers`. -/
def mapRecordToState (record : GameRecord) : GameState :=
  { initialGameState with
    gameId := record.id
    hostCode := record.host_code
    hostName := record.host_name
    phase := record.phase
    currentSegment := record.current_segment
    currentQuestionIndex := record.current_question_index
    videoRoomUrl := record.video_room_url
    videoRoomCreated := record.video_room_created
    timer := record.timer
    isTimerRunning := record.is_timer_running
    segmentSettings := record.segment_settings
    players := defaultPlayers }

/-- Keys of a players object, in insertion order. -/
def keysOf (ps : Players) : List PlayerId := ps.map Prod.fst

/-- The association of each player key to its strikes counter. -/
def strikesMap (ps : Players) : List (PlayerId × Nat) :=
  ps.map (fun kv => (kv.1, kv.2.strikes))

/-- Strikes of one player of a state, when the key is present. -/
def playerStrikes (s : GameState) (k : PlayerId) : Option Nat :=
  (objGet s.players k).map Player.strikes

/-- The three fixed player keys, in the insertion order of `defaultPlayers`. -/
def fixedPlayerKeys : List PlayerId := [.host, .playerA, .playerB]

/-- Local state of Scenario D of the spec: timer 30, phase PLAYING. -/
def scenarioLocalState : GameState :=
  { initialGameState with timer := 30, phase := .PLAYING, isTimerRunning := true }

/-- The remote delta `{timer: 12}` of Scenario D: only `timer` present. -/
def timerOnlyDelta : GameStateDelta where
  gameId := none
  hostCode := none
  hostName := none
  phase := none
  currentSegment := none
  currentQuestionIndex := none
  timer := some 12
  isTimerRunning := none
  players := none
  scoreHistory := none
  segmentSettings := none
  videoRoomUrl := none
  videoRoomCreated := none

lemma keysOf_objUpdate (f : Player → Player) :
    ∀ (ps : Players) (k : PlayerId), keysOf (objUpdate f ps k) = keysOf ps := by
  intro ps k
  induction ps with
  | nil => rfl
  | cons kv rest ih =>
      by_cases h : kv.1 = k <;> simp [objUpdate, keysOf, h] <;>
        simpa [keysOf] using ih

lemma keysOf_objSet_mem (v : Player) :
    ∀ (ps : Players) (k : PlayerId), k ∈ keysOf ps →
      keysOf (objSet ps k v) = keysOf ps := by
  intro ps k hk
  induction ps with
  | nil => simp [keysOf] at hk
  | cons kv rest ih =>
      by_cases h : kv.1 = k
      · simp [objSet, keysOf, h]
      · have hk2 : k ∈ keysOf rest := by
          simp [keysOf] at hk
          rcases hk with h1 | h1
          · exact absurd h1.symm h
          · simpa [keysOf] using h1
        simp [objSet, keysOf, h]
        simpa [keysOf] using ih hk2

lemma keysOf_zeroStrikes (ps : Players) : keysOf (zeroStrikes ps) = keysOf ps := by
  simp [keysOf, zeroStrikes]

lemma zeroStrikes_mem (ps : Players) :
    ∀ kv ∈ zeroStrikes ps, kv.2.strikes = 0 := by
  intro kv hkv
  simp [zeroStrikes, List.mem_map] at hkv
  obtain ⟨a, b, _, rfl⟩ := hkv
  rfl

lemma defaultPlayers_strikes : ∀ kv ∈ defaultPlayers, kv.2.strikes = 0 := by decide

lemma objGet_objUpdate (f : Player → Player) :
    ∀ (ps : Players) (k : PlayerId),
      objGet (objUpdate f ps k) k = (objGet ps k).map f := by
  intro ps k
  induction ps with
  | nil => rfl
  | cons kv rest ih =>
      by_cases h : kv.1 = k <;> simp [objUpdate, objGet, h, ih]

lemma strikesMap_objUpdate (f : Player → Player) (hf : ∀ p, (f p).strikes = p.strikes) :
    ∀ (ps : Players) (k : PlayerId), strikesMap (objUpdate f ps k) = strikesMap ps := by
  intro ps k
  induction ps with
  | nil => rfl
  | cons kv rest ih =>
      by_cases h : kv.1 = k <;> simp [objUpdate, strikesMap, h, hf] <;>
        simpa [strikesMap] using ih

/-- Claim C1: dispatching `INIT` with a partial payload merged over the
current state (`{ ...state, ...gs }` followed by the reducer's `INIT` case)
yields a state in which each field present in the payload takes the
payload's value and each field absent retains its current local value; in
particular, from a local state with timer 30 and phase PLAYING, applying
`INIT({timer:12})` yields timer 12 with phase and players unchanged. -/
theorem init_merge_semantics (s : GameState) (d : GameStateDelta) :
    (applyRemoteDelta s d).gameId = d.gameId.getD s.gameId ∧
    (applyRemoteDelta s d).hostCode = d.hostCode.getD s.hostCode ∧
    (applyRemoteDelta s d).hostName = d.hostName.getD s.hostName ∧
    (applyRemoteDelta s d).phase = d.phase.getD s.phase ∧
    (applyRemoteDelta s d).currentSegment = d.currentSegment.getD s.currentSegment ∧
    (applyRemoteDelta s d).currentQuestionIndex = d.currentQuestionIndex.getD s.currentQuestionIndex ∧
    (applyRemoteDelta s d).timer = d.timer.getD s.timer ∧
    (applyRemoteDelta s d).isTimerRunning = d.isTimerRunning.getD s.isTimerRunning ∧
    (applyRemoteDelta s d).players = d.players.getD s.players ∧
    (applyRemoteDelta s d).scoreHistory = d.scoreHistory.getD s.scoreHistory ∧
    (applyRemoteDelta s d).segmentSettings = d.segmentSettings.getD s.segmentSettings ∧
    (applyRemoteDelta s d).videoRoomUrl = d.videoRoomUrl.getD s.videoRoomUrl ∧
    (applyRemoteDelta s d).videoRoomCreated = d.videoRoomCreated.getD s.videoRoomCreated ∧
    (applyRemoteDelta scenarioLocalState timerOnlyDelta).timer = 12 ∧
    (applyRemoteDelta scenarioLocalState timerOnlyDelta).phase = .PLAYING ∧
    (applyRemoteDelta scenarioLocalState timerOnlyDelta).players = scenarioLocalState.players :=
  ⟨rfl, rfl, rfl, rfl, rfl, rfl, rfl, rfl, rfl, rfl, rfl, rfl, rfl, rfl, rfl, rfl⟩

/-- Claim C7: `NEXT_QUESTION` increments `currentQuestionIndex` by 1, resets
`timer` to 0 and `isTimerRunning` to false, and resets every player's
strikes to 0; after three `ADD_STRIKE(playerA)` dispatches
`playerA.strikes == 3`, and one `NEXT_QUESTION` then zeroes both players'
strikes. -/
theorem next_question_spec :
    (∀ s : GameState,
      (gameReducer s .NEXT_QUESTION).currentQuestionIndex = s.currentQuestionIndex + 1 ∧
      (gameReducer s .NEXT_QUESTION).timer = 0 ∧
      (gameReducer s .NEXT_QUESTION).isTimerRunning = false ∧
      ∀ kv ∈ (gameReducer s .NEXT_QUESTION).players, kv.2.strikes = 0) ∧
    playerStrikes (applyActions initialGameState
      [.ADD_STRIKE .playerA, .ADD_STRIKE .playerA, .ADD_STRIKE .playerA]) .playerA = some 3 ∧
    playerStrikes (applyActions initialGameState
      [.ADD_STRIKE .playerA, .ADD_STRIKE .playerA, .ADD_STRIKE .playerA,
       .NEXT_QUESTION]) .playerA = some 0 ∧
    playerStrikes (applyActions initialGameState
      [.ADD_STRIKE .playerA, .ADD_STRIKE .playerA, .ADD_STRIKE .playerA,
       .NEXT_QUESTION]) .playerB = some 0 := by
  refine ⟨fun s => ⟨rfl, rfl, rfl, ?_⟩, by decide, by decide, by decide⟩
  exact zeroStrikes_mem s.players

/-- Witness for `next_question_spec` at the concrete three-strike run. -/
theorem next_question_spec_witness :
    playerStrikes (applyActions initialGameState
      [.ADD_STRIKE .playerA, .ADD_STRIKE .playerA, .ADD_STRIKE .playerA]) .playerA = some 3 :=
  next_question_spec.2.1

/-- Claim C8: `COMPLETE_GAME` sets the phase to COMPLETED and stops the
timer (`isTimerRunning := false`), leaving every other field unchanged. -/
theorem complete_game_spec (s : GameState) :
    gameReducer s .COMPLETE_GAME = { s with phase := .COMPLETED, isTimerRunning := false } :=
  rfl

/-- Claim C9: `mapRecordToState` always rebuilds `players` from the fixed
three-slot default set regardless of the record's contents, and every
`GameState` field absent from the record (here `scoreHistory`) falls back
to the canonical initial-state default. -/
theorem map_record_defaults (record : GameRecord) :
    (mapRecordToState record).players = defaultPlayers ∧
    keysOf (mapRecordToState record).players = fixedPlayerKeys ∧
    (mapRecordToState record).scoreHistory = initialGameState.scoreHistory :=
  ⟨rfl, rfl, rfl⟩

/-- Claim C10: the reducer accepts `UPDATE_TIMER` (an action outside the
spec's §4.1 action set); `UPDATE_TIMER(t, b)` sets `timer` to exactly `t`
and `isTimerRunning` to exactly `b`, with no validation of `t`, and leaves
every other field unchanged. -/
theorem update_timer_spec (s : GameState) (t : Int) (b : Bool) :
    gameReducer s (.UPDATE_TIMER t b) = { s with timer := t, isTimerRunning := b } :=
  rfl

/-- Actions whose reducer case leaves `phase` untouched (every case except
`INIT`, `SET_PHASE` and `RESET_GAME`; `COMPLETE_GAME` writes COMPLETED). -/
def keepsPhase (a : GameAction) : Bool :=
  match a with
  | .INIT _ => false
  | .SET_PHASE _ => false
  | .RESET_GAME => false
  | _ => true

/-- Counterexample to claim C2: from a COMPLETED state, `UPDATE_SCORE` (an
action other than a full reset) does not return the state unchanged — it
still adds the points. -/
theorem completed_still_mutates :
    (gameReducer initialGameState .COMPLETE_GAME).phase = .COMPLETED ∧
    gameReducer (gameReducer initialGameState .COMPLETE_GAME)
        (.UPDATE_SCORE .playerA 10) ≠
      gameReducer initialGameState .COMPLETE_GAME ∧
    (objGet (gameReducer (gameReducer initialGameState .COMPLETE_GAME)
        (.UPDATE_SCORE .playerA 10)).players .playerA).map Player.score = some 10 := by
  refine ⟨rfl, ?_, by decide⟩
  decide

/-- Claim C2 (amended): the reducer does not gate actions on the phase:
state-mutating actions still take effect in a COMPLETED state (see the
counterexample); what does hold is that the phase itself stays COMPLETED
under every action other than `INIT`, `SET_PHASE` and `RESET_GAME`. -/
theorem completed_phase_persists (s : GameState) (a : GameAction)
    (hphase : s.phase = .COMPLETED) (hkeep : keepsPhase a = true) :
    (gameReducer s a).phase = .COMPLETED := by
  cases a <;> simp_all [gameReducer, keepsPhase] <;> split <;> simp_all

/-- Witness for `completed_phase_persists` at a concrete COMPLETED state. -/
theorem completed_phase_persists_witness :
    (gameReducer { initialGameState with phase := .COMPLETED } .STOP_TIMER).phase = .COMPLETED :=
  completed_phase_persists { initialGameState with phase := .COMPLETED } .STOP_TIMER rfl rfl

/-- Actions whose reducer case unconditionally zeroes every strikes
counter. -/
def strikesResetAction (a : GameAction) : Bool :=
  match a with
  | .NEXT_QUESTION | .NEXT_SEGMENT | .RESET_STRIKES | .RESET_GAME => true
  | _ => false

/-- Actions whose reducer case can never change any strikes counter:
everything except the four reset actions and the player-data-carrying
`INIT`, `ADD_PLAYER`, `UPDATE_PLAYER`, `ADD_STRIKE`. -/
def strikesUntouchedAction (a : GameAction) : Bool :=
  match a with
  | .INIT _ | .ADD_PLAYER _ | .UPDATE_PLAYER _ _ | .ADD_STRIKE _
  | .NEXT_QUESTION | .NEXT_SEGMENT | .RESET_STRIKES | .RESET_GAME => false
  | _ => true

/-- An `UPDATE_PLAYER` patch that only sets `strikes` to 0. -/
def zeroStrikesPatch : PlayerDelta where
  id := none
  name := none
  score := none
  strikes := some 0
  specialButtons := none
  flag := none
  club := none
  isConnected := none

/-- Counterexample to claim C3: `ADD_STRIKE` enforces no ceiling — a fourth
strike yields `strikes == 4 > 3`; and `UPDATE_PLAYER` (an action outside
the claimed reset set) also zeroes a player's strikes. -/
theorem strikes_exceed_three :
    playerStrikes (applyActions initialGameState
      [.ADD_STRIKE .playerA, .ADD_STRIKE .playerA,
       .ADD_STRIKE .playerA, .ADD_STRIKE .playerA]) .playerA = some 4 ∧
    playerStrikes (applyActions initialGameState
      [.ADD_STRIKE .playerA, .ADD_STRIKE .playerA]) .playerA = some 2 ∧
    playerStrikes (applyActions initialGameState
      [.ADD_STRIKE .playerA, .ADD_STRIKE .playerA,
       .UPDATE_PLAYER .playerA zeroStrikesPatch]) .playerA = some 0 := by
  refine ⟨by decide, by decide, by decide⟩

/-- Claim C3 (amended): strikes counters are natural numbers (so 0 is the
floor), but no upper ceiling is enforced; `NEXT_QUESTION`, `NEXT_SEGMENT`,
`RESET_STRIKES` and `RESET_GAME` zero every player's strikes; every action
other than those four, `INIT`, `ADD_PLAYER`, `UPDATE_PLAYER` and
`ADD_STRIKE` leaves every strikes counter unchanged; and `ADD_STRIKE`
increments the addressed player's counter via `(strikes || 0) + 1`. -/
theorem strikes_dynamics (s : GameState) (a : GameAction) :
    (strikesResetAction a = true →
      ∀ kv ∈ (gameReducer s a).players, kv.2.strikes = 0) ∧
    (strikesUntouchedAction a = true →
      strikesMap (gameReducer s a).players = strikesMap s.players) ∧
    (∀ pid : PlayerId,
      playerStrikes (gameReducer s (.ADD_STRIKE pid)) pid =
        (playerStrikes s pid).map (fun n => strikesOrZero n + 1)) := by
  refine ⟨?_, ?_, ?_⟩
  · intro h kv hkv
    cases a <;> simp [strikesResetAction] at h <;>
      first
        | exact zeroStrikes_mem s.players kv hkv
        | exact defaultPlayers_strikes kv hkv
  · intro h
    cases a <;> simp [strikesUntouchedAction] at h <;>
      first
        | rfl
        | (refine strikesMap_objUpdate _ ?_ s.players _; intro p; rfl)
        | (simp only [gameReducer]; split <;> rfl)
  · intro pid
    simp [playerStrikes, gameReducer, objGet_objUpdate, Option.map_map]
    rfl

/-- Witness for `strikes_dynamics` at a concrete reset and increment. -/
theorem strikes_dynamics_witness :
    strikesMap (gameReducer initialGameState .STOP_TIMER).players =
      strikesMap initialGameState.players :=
  (strikes_dynamics initialGameState .STOP_TIMER).2.1 rfl

/-- Actions that cannot inject a negative timer value: `START_TIMER`,
`UPDATE_TIMER` and `INIT` are safe exactly when the value they carry is
non-negative; every other action is always safe. -/
def timerSafeAction (a : GameAction) : Bool :=
  match a with
  | .START_TIMER d => decide (0 ≤ d)
  | .UPDATE_TIMER t _ => decide (0 ≤ t)
  | .INIT p => decide (0 ≤ p.timer)
  | _ => true

/-- Counterexample to claim C4: from the initial state (timer 0 ≥ 0),
`UPDATE_TIMER(-1, false)` yields a negative timer — the reducer performs no
validation. -/
theorem update_timer_negative :
    0 ≤ initialGameState.timer ∧
    (gameReducer initialGameState (.UPDATE_TIMER (-1) false)).timer < 0 := by
  refine ⟨by decide, by decide⟩

/-- Claim C4 (amended): for every state with `timer ≥ 0` and every action
that does not itself carry a negative timer value (`START_TIMER` with
negative duration, `UPDATE_TIMER` with negative value, or `INIT` whose
payload has a negative timer), the resulting timer is ≥ 0. -/
theorem timer_nonneg_preserved (s : GameState) (a : GameAction)
    (hs : 0 ≤ s.timer) (ha : timerSafeAction a = true) :
    0 ≤ (gameReducer s a).timer := by
  cases a <;> simp_all [gameReducer, timerSafeAction, initialGameState] <;>
    split <;> simp_all <;> omega

/-- Witness for `timer_nonneg_preserved` at a concrete `START_TIMER`. -/
theorem timer_nonneg_preserved_witness :
    0 ≤ (gameReducer initialGameState (.START_TIMER 30)).timer :=
  timer_nonneg_preserved initialGameState (.START_TIMER 30) (by decide) (by decide)

/-- Every player id is one of the three fixed keys. -/
lemma playerId_mem_fixed (pid : PlayerId) : pid ∈ fixedPlayerKeys := by
  cases pid <;> simp [fixedPlayerKeys]

/-- Well-formedness of an action's payload: an `INIT` payload carries a
players object with exactly the three fixed keys (guaranteed by the
`GameState` type of the TypeScript payload); every other action is
unconditionally well formed. -/
def wfInitAction (a : GameAction) : Bool :=
  match a with
  | .INIT p => decide (keysOf p.players = fixedPlayerKeys)
  | _ => true

lemma gameReducer_keys (s : GameState) (a : GameAction)
    (hs : keysOf s.players = fixedPlayerKeys) (ha : wfInitAction a = true) :
    keysOf (gameReducer s a).players = fixedPlayerKeys := by
  cases a <;>
    first
      | exact hs
      | exact of_decide_eq_true ha
      | exact (keysOf_objUpdate _ s.players _).trans hs
      | exact (keysOf_zeroStrikes s.players).trans hs
      | rfl
      | (simp only [gameReducer]; split <;> exact hs)
      | (refine (keysOf_objSet_mem _ s.players _ ?_).trans hs
         rw [hs]; exact playerId_mem_fixed _)

lemma applyActions_keys : ∀ (acts : List GameAction) (s : GameState),
    keysOf s.players = fixedPlayerKeys → (∀ a ∈ acts, wfInitAction a = true) →
    keysOf (applyActions s acts).players = fixedPlayerKeys := by
  intro acts
  induction acts with
  | nil => intro s hs _; exact hs
  | cons a rest ih =>
      intro s hs hw
      exact ih (gameReducer s a)
        (gameReducer_keys s a hs (hw a (by simp)))
        (fun b hb => hw b (by simp [hb]))

/-- Claim C5: after any sequence of (well-formed) actions starting from the
initial state, the players mapping has exactly the three fixed keys host,
playerA, playerB — never fewer or more. `INIT` payloads are required to be
well formed, which the TypeScript `GameState` type of the payload
guarantees. -/
theorem players_keys_invariant (acts : List GameAction)
    (h : ∀ a ∈ acts, wfInitAction a = true) :
    keysOf (applyActions initialGameState acts).players = fixedPlayerKeys :=
  applyActions_keys acts initialGameState rfl h

/-- Witness for `players_keys_invariant` on a concrete action sequence. -/
theorem players_keys_invariant_witness :
    keysOf (applyActions initialGameState
      [.NEXT_QUESTION, .ADD_STRIKE .playerA, .INIT initialGameState,
       .ADD_PLAYER (defaultPlayer .playerB), .RESET_GAME]).players = fixedPlayerKeys :=
  players_keys_invariant _ (by decide)

/-- Iterated dispatch of `TICK_TIMER`. -/
def tickN : Nat → GameState → GameState
  | 0, s => s
  | n + 1, s => tickN n (gameReducer s .TICK_TIMER)

lemma tickN_succ_last (n : Nat) : ∀ s : GameState,
    tickN (n + 1) s = gameReducer (tickN n s) .TICK_TIMER := by
  induction n with
  | zero => intro s; rfl
  | succ m ih => intro s; exact ih (gameReducer s .TICK_TIMER)

lemma tickN_timer_to_zero (n : Nat) : ∀ s : GameState, s.timer = (n : Int) →
    (tickN n s).timer = 0 := by
  induction n with
  | zero => intro s h; simpa [tickN] using h
  | succ m ih =>
      intro s h
      have hpos : 0 < s.timer := by omega
      show (tickN m (gameReducer s .TICK_TIMER)).timer = 0
      apply ih
      have hstep : gameReducer s .TICK_TIMER = { s with timer := s.timer - 1 } := by
        simp [gameReducer, hpos]
      rw [hstep]
      show s.timer - 1 = (m : Int)
      omega

/-- Claim C6: from any state with timer 0 and the timer stopped,
`START_TIMER(30)` yields timer 30 and a running timer; thirty `TICK_TIMER`
dispatches then yield timer 0 and one further `TICK_TIMER` leaves it at 0;
in general `TICK_TIMER` decrements by 1 when the timer is positive, is a
no-op otherwise, and never itself changes `isTimerRunning`. -/
theorem timer_scenario (s : GameState) (_h0 : s.timer = 0)
    (_hr : s.isTimerRunning = false) :
    (gameReducer s (.START_TIMER 30)).timer = 30 ∧
    (gameReducer s (.START_TIMER 30)).isTimerRunning = true ∧
    (tickN 30 (gameReducer s (.START_TIMER 30))).timer = 0 ∧
    (tickN 31 (gameReducer s (.START_TIMER 30))).timer = 0 ∧
    (∀ s2 : GameState, 0 < s2.timer →
      gameReducer s2 .TICK_TIMER = { s2 with timer := s2.timer - 1 }) ∧
    (∀ s2 : GameState, ¬ 0 < s2.timer → gameReducer s2 .TICK_TIMER = s2) ∧
    (∀ s2 : GameState,
      (gameReducer s2 .TICK_TIMER).isTimerRunning = s2.isTimerRunning) := by
  have h30 : (tickN 30 (gameReducer s (.START_TIMER 30))).timer = 0 :=
    tickN_timer_to_zero 30 _ rfl
  refine ⟨rfl, rfl, h30, ?_, ?_, ?_, ?_⟩
  · rw [tickN_succ_last]
    have hz : ∀ s2 : GameState, s2.timer = 0 →
        (gameReducer s2 .TICK_TIMER).timer = 0 := by
      intro s2 h2
      simp [gameReducer, h2]
    exact hz _ h30
  · intro s2 h
    simp [gameReducer, h]
  · intro s2 h
    simp [gameReducer, h]
  · intro s2
    simp only [gameReducer]
    split <;> rfl

/-- Witness for `timer_scenario` at the initial state. -/
theorem timer_scenario_witness :
    (tickN 30 (gameReducer initialGameState (.START_TIMER 30))).timer = 0 :=
  (timer_scenario initialGameState rfl rfl).2.2.1

end ThirtyChallenge
